import Mathlib

/-!
Verification development for the ETF trading project's data-ingestion and
monitoring core: the monitoring status route (`convertTaskInfoToStatus` and
the `GET` dispatch), the retry trigger route (`POST` of
`auto-monitoring/app/api/retry/route.ts`), the `scraping_logs` SQL schema,
and the upload/upsert and symbol-status-tracking behaviour of the scraper
service.

JavaScript `Record<string, T>` objects are embedded as association lists
`List (String × T)`, `undefined`-able fields as `Option`, and JavaScript
string truthiness (`""` is falsy) is made explicit where the source relies
on it.
-/

/-- JS truthiness for an optional string: `undefined`/`null` and `""` are falsy. -/
def strTruthy : Option String → Option String
  | none => none
  | some s => if s = "" then none else some s

/-- First-match lookup in an association list, as JS property access `obj[key]`. -/
def assocLookup {α : Type} (m : List (String × α)) (k : String) : Option α :=
  (m.find? (fun p => p.1 = k)).map Prod.snd

/-! ## Embedding of the status route (`convertTaskInfoToStatus` and `GET`) -/

/-- `TimeframeInfo` of the status route: per-timeframe record in `task_info.json`. -/
structure TimeframeInfo where
  status : String
  rows : Nat
  error : Option String := none
  downloaded_at : Option String := none
  uploaded_at : Option String := none
  deriving Repr, DecidableEq

/-- `SymbolInfo` of the status route: per-symbol record in `task_info.json`. -/
structure SymbolInfo where
  symbol : String
  status : String
  timeframes : List (String × TimeframeInfo)
  error : Option String := none
  start_time : Option String := none
  end_time : Option String := none
  deriving Repr, DecidableEq

/-- `RetryTask` of the status route. -/
structure RetryTask where
  retry_id : String
  parent_job_id : String
  symbols : List String
  status : String
  start_time : Option String := none
  end_time : Option String := none
  deriving Repr, DecidableEq

/-- `TaskInfoJob`: the parsed shape of `task_info.json`. -/
structure TaskInfoJob where
  job_id : String
  status : String
  symbols : List (String × SymbolInfo)
  current_symbol : Option String := none
  current_timeframe : Option String := none
  start_time : Option String := none
  end_time : Option String := none
  total_downloaded : Nat
  total_uploaded : Nat
  total_rows : Nat
  retry_tasks : List RetryTask := []
  deriving Repr, DecidableEq

/-- `mapTimeframeStatus`: maps a timeframe status string from `task_info` to the
`ScrapingStatus` format, defaulting to `"pending"`. -/
def mapTimeframeStatus (status : String) : String :=
  if status = "pending" then "pending"
  else if status = "downloading" then "downloading"
  else if status = "success" then "success"
  else if status = "failed" then "failed"
  else "pending"

/-- The `statusMap` record literal inside `convertTaskInfoToStatus`, as a lookup:
`none` models an absent key (JS `undefined`). -/
def jobStatusMap (s : String) : Option String :=
  if s = "idle" then some "idle"
  else if s = "running" then some "running"
  else if s = "completed" then some "completed"
  else if s = "partial" then some "partial"
  else if s = "stopped" then some "idle"
  else if s = "error" then some "error"
  else none

/-- Per-timeframe entry of the converted view: `rows: tf.rows || undefined`
turns a zero row count into `undefined`. -/
structure TfOut where
  status : String
  rows : Option Nat := none
  error : Option String := none
  deriving Repr, DecidableEq

/-- Per-symbol entry of the converted view (`SymbolScrapingStatus`), with the
four fixed timeframe keys `12달`, `1달`, `1주`, `1일`. -/
structure SymbolOut where
  symbol : String
  status : String
  startedAt : Option String := none
  completedAt : Option String := none
  tf12 : TfOut
  tf1m : TfOut
  tf1w : TfOut
  tf1d : TfOut
  deriving Repr, DecidableEq

/-- The timeframe default `{ status: 'pending', rows: 0 }` used when a
timeframe key is missing from `taskSymbol.timeframes`. -/
def defaultTf : TimeframeInfo := { status := "pending", rows := 0 }

/-- Converts one source `TimeframeInfo` to the output `TfOut`. -/
def convertTf (tf : TimeframeInfo) : TfOut :=
  { status := mapTimeframeStatus tf.status
    rows := if tf.rows = 0 then none else some tf.rows
    error := tf.error }

/-- Maps a symbol status string from `task_info` to the output vocabulary; the
accumulator is initialised to `"pending"` and the `switch` has no default, so
unknown statuses stay `"pending"`. -/
def mapSymbolStatus (s : String) : String :=
  if s = "pending" then "pending"
  else if s = "downloading" then "in_progress"
  else if s = "uploading" then "in_progress"
  else if s = "completed" then "completed"
  else if s = "partial" then "partial"
  else if s = "failed" then "failed"
  else "pending"

/-- The body of `SYMBOLS.map(symbol => ...)` in `convertTaskInfoToStatus`:
builds the output entry for one configured symbol. A symbol absent from
`taskInfo.symbols` yields a fully pending entry. -/
def buildSymbolStatus (taskInfo : TaskInfoJob) (symbol : String) : SymbolOut :=
  match assocLookup taskInfo.symbols symbol with
  | none =>
      { symbol := symbol
        status := "pending"
        tf12 := { status := "pending" }
        tf1m := { status := "pending" }
        tf1w := { status := "pending" }
        tf1d := { status := "pending" } }
  | some taskSymbol =>
      let tfs := taskSymbol.timeframes
      { symbol := symbol
        status := mapSymbolStatus taskSymbol.status
        startedAt := taskSymbol.start_time
        completedAt := taskSymbol.end_time
        tf12 := convertTf ((assocLookup tfs "12달").getD defaultTf)
        tf1m := convertTf ((assocLookup tfs "1달").getD defaultTf)
        tf1w := convertTf ((assocLookup tfs "1주").getD defaultTf)
        tf1d := convertTf ((assocLookup tfs "1일").getD defaultTf) }

/-- `ScrapingError` entries collected from timeframe records. -/
structure ScrapingError where
  timestamp : String
  symbol : String
  timeframe : String
  kind : String
  message : String
  deriving Repr, DecidableEq

/-- The error-collection loop of `convertTaskInfoToStatus`: one entry per
timeframe record whose `error` field is truthy (present and non-empty);
`now` stands for `new Date().toISOString()`. -/
def collectErrors (taskInfo : TaskInfoJob) (now : String) : List ScrapingError :=
  taskInfo.symbols.flatMap fun p =>
    p.2.timeframes.filterMap fun q =>
      (strTruthy q.2.error).map fun e =>
        { timestamp := (strTruthy p.2.end_time).getD now
          symbol := p.2.symbol
          timeframe := q.1
          kind := "download"
          message := e }

/-- The `progress` block of the converted view. -/
structure ProgressOut where
  totalSymbols : Nat
  completedSymbols : Nat
  currentSymbol : Option String := none
  currentTimeframe : Option String := none
  percentage : Nat
  deriving Repr, DecidableEq

/-- The `statistics` block of the converted view. -/
structure StatisticsOut where
  totalDownloads : Nat
  successfulUploads : Nat
  failedDownloads : Nat
  totalRowsUploaded : Nat
  deriving Repr, DecidableEq

/-- The converted `ScrapingStatus` view; `currentSession` is reduced to its
one data-bearing field (`startTime`), the remaining three being constants. -/
structure ScrapingStatus where
  status : String
  lastRun : Option String := none
  currentSession : Option String := none
  progress : ProgressOut
  statistics : StatisticsOut
  symbols : List SymbolOut
  errors : List ScrapingError
  deriving Repr, DecidableEq

/-- `Math.round((c / t) * 100)` for naturals `c`, `t` with `t > 0`:
`⌊100 c / t + 1 / 2⌋ = ⌊(200 c + t) / (2 t)⌋`, exact as natural division. -/
def roundPct (c t : Nat) : Nat := (200 * c + t) / (2 * t)

/-- `convertTaskInfoToStatus`: converts a parsed `task_info.json` document to
the `ScrapingStatus` view served by the monitoring status route. `SYMBOLS` is
the configured symbol list and `now` stands for `new Date().toISOString()`. -/
def convertTaskInfoToStatus (taskInfo : TaskInfoJob) (SYMBOLS : List String)
    (now : String) : ScrapingStatus :=
  let symbols := SYMBOLS.map (buildSymbolStatus taskInfo)
  let completedCount :=
    (taskInfo.symbols.map Prod.snd).countP (fun s => s.status = "completed")
  let totalSymbols :=
    if taskInfo.symbols.length = 0 then SYMBOLS.length else taskInfo.symbols.length
  let errors := collectErrors taskInfo now
  { status := (jobStatusMap taskInfo.status).getD "idle"
    lastRun := strTruthy taskInfo.end_time <|> strTruthy taskInfo.start_time
    currentSession := strTruthy taskInfo.start_time
    progress :=
      { totalSymbols := totalSymbols
        completedSymbols := completedCount
        currentSymbol := strTruthy taskInfo.current_symbol
        currentTimeframe := strTruthy taskInfo.current_timeframe
        percentage := if 0 < totalSymbols then roundPct completedCount totalSymbols else 0 }
    statistics :=
      { totalDownloads := taskInfo.total_downloaded
        successfulUploads := taskInfo.total_uploaded
        failedDownloads := (taskInfo.symbols.map Prod.snd).countP
          (fun s => s.status = "failed" ∨ s.status = "partial")
        totalRowsUploaded := taskInfo.total_rows }
    symbols := symbols
    errors := errors.drop (errors.length - 50) }

/-! ## Embedding of the status route's `GET` dispatch -/

/-- Which data source the `GET` handler derives its response from. -/
inductive StatusSource where
  | fromTaskInfo (t : TaskInfoJob)
  | fromLogParse
  deriving Repr, DecidableEq

/-- The outcome of reading and parsing `task_info.json`: `none` models a
missing/unreadable file, `some none` content that fails to parse (or parses to
a falsy value), `some (some t)` a parsed document. -/
abbrev TaskInfoRead := Option (Option TaskInfoJob)

/-- The `GET` handler's source selection: the parsed `task_info.json` is used
when it exists and `taskInfo.job_id` is truthy and differs from the sentinel
`"initial"`; every other case falls back to log-file parsing. -/
def getStatusSource (read : TaskInfoRead) : StatusSource :=
  match read with
  | some (some t) =>
      if t.job_id ≠ "" ∧ t.job_id ≠ "initial" then .fromTaskInfo t else .fromLogParse
  | _ => .fromLogParse

/-- The `GET` handler's response body: `logStatus` stands for the view
produced by `parseScrapingLog()` on the fallback path. -/
def getStatusResponse (read : TaskInfoRead) (logStatus : ScrapingStatus)
    (SYMBOLS : List String) (now : String) : ScrapingStatus :=
  match getStatusSource read with
  | .fromTaskInfo t => convertTaskInfoToStatus t SYMBOLS now
  | .fromLogParse => logStatus

/-! ## Embedding of the retry route (`POST` of `app/api/retry/route.ts`) -/

/-- One character of the allow-list class `[A-Z0-9.]`. -/
def symbolCharOk (c : Char) : Bool :=
  (('A' ≤ c ∧ c ≤ 'Z') ∨ ('0' ≤ c ∧ c ≤ '9') ∨ c = '.' : Prop)

/-- `symbolPattern.test(symbol)` for `/^[A-Z0-9.]{1,10}$/`: between 1 and 10
characters, all from `[A-Z0-9.]`. -/
def symbolPatternTest (s : String) : Bool :=
  1 ≤ s.length ∧ s.length ≤ 10 ∧ s.toList.all symbolCharOk

/-- The environment the `POST` handler interacts with: the scraper service's
`/health` response and its `/jobs/retry` response. `current_job` is `none`
when the health body's `current_job` field is null/absent. -/
structure RetryEnv where
  healthOk : Bool
  current_job : Option String
  retryOk : Bool
  retryStatus : Nat
  retryJobId : String
  retryJobStatus : String
  deriving Repr, DecidableEq

/-- The response of the `POST` handler, by branch. -/
inductive RetryOutcome where
  | symbolRequired
  | invalidSymbolFormat
  | scraperUnavailable
  | jobAlreadyRunning (current_job : String)
  | retryFailed (status : Nat)
  | started (job_id : String) (status : String)
  deriving Repr, DecidableEq

/-- HTTP status code of each `POST` outcome. -/
def retryOutcomeCode : RetryOutcome → Nat
  | .symbolRequired => 400
  | .invalidSymbolFormat => 400
  | .scraperUnavailable => 503
  | .jobAlreadyRunning _ => 409
  | .retryFailed status => status
  | .started _ _ => 200

/-- Result of one `POST` invocation: the response plus which outbound requests
to the scraper service were actually sent. -/
structure RetryResult where
  outcome : RetryOutcome
  healthRequested : Bool
  retryRequested : Bool
  deriving Repr, DecidableEq

/-- The `POST` handler of the retry route. `symbol` is the request body's
`symbol` field (`none` when absent). Validation failures return 400 before any
request reaches the scraper; a truthy `current_job` in the health response
returns 409 without starting a retry job. -/
def retryPOST (symbol : Option String) (env : RetryEnv) : RetryResult :=
  match symbol with
  | none => { outcome := .symbolRequired, healthRequested := false, retryRequested := false }
  | some s =>
    if s = "" then
      { outcome := .symbolRequired, healthRequested := false, retryRequested := false }
    else if ¬ symbolPatternTest s then
      { outcome := .invalidSymbolFormat, healthRequested := false, retryRequested := false }
    else if ¬ env.healthOk then
      { outcome := .scraperUnavailable, healthRequested := true, retryRequested := false }
    else
      match env.current_job with
      | some j =>
          { outcome := .jobAlreadyRunning j, healthRequested := true, retryRequested := false }
      | none =>
          if env.retryOk then
            { outcome := .started env.retryJobId env.retryJobStatus
              healthRequested := true, retryRequested := true }
          else
            { outcome := .retryFailed env.retryStatus
              healthRequested := true, retryRequested := true }

/-! ## Embedding of the `scraping_logs` SQL schema -/

/-- The `level` column's ENUM: exactly the five leveled-log values. -/
inductive LogLevel where
  | DEBUG | INFO | WARNING | ERROR | CRITICAL
  deriving Repr, DecidableEq

/-- Parses a raw level string against the ENUM definition; any other string is
rejected by the column constraint. -/
def parseLogLevel (s : String) : Option LogLevel :=
  if s = "DEBUG" then some .DEBUG
  else if s = "INFO" then some .INFO
  else if s = "WARNING" then some .WARNING
  else if s = "ERROR" then some .ERROR
  else if s = "CRITICAL" then some .CRITICAL
  else none

/-- A stored row of `scraping_logs`: `job_id`, `timestamp` and `message` are
NOT NULL, `symbol` and `timeframe` are nullable, `level` is the ENUM. -/
structure ScrapingLogRow where
  id : Nat
  job_id : String
  timestamp : String
  level : LogLevel
  symbol : Option String := none
  timeframe : Option String := none
  message : String
  deriving Repr, DecidableEq

/-- Inserting into `scraping_logs`: succeeds (appending an auto-increment row)
exactly when the raw level string satisfies the ENUM constraint. -/
def insertScrapingLog (table : List ScrapingLogRow) (job_id timestamp level : String)
    (symbol timeframe : Option String) (message : String) :
    Option (List ScrapingLogRow) :=
  (parseLogLevel level).map fun lv =>
    table ++ [{ id := table.length + 1, job_id := job_id, timestamp := timestamp
                level := lv, symbol := symbol, timeframe := timeframe
                message := message }]

/-! ## Upload/Upsert Service (scraper-service `db_service.py`) -/

/-- Modelled from the spec: the Upload/Upsert Service
(`scraper-service/app/services/db_service.py`) is not present in the
repository snapshot, only referenced by its documentation. A destination
table row holds a timestamp (the natural key) and the OHLCV fields. -/
structure OhlcvRow where
  timestamp : String
  open_p : Int
  high : Int
  low : Int
  close : Int
  volume : Int
  deriving Repr, DecidableEq

/-- Modelled from the spec: a destination table is a sequence of rows, and one
upserted row replaces the existing row with the same timestamp in place, or is
appended when the timestamp is new. -/
def upsertOne (table : List OhlcvRow) (r : OhlcvRow) : List OhlcvRow :=
  if table.any (fun x => x.timestamp = r.timestamp) then
    table.map (fun x => if x.timestamp = r.timestamp then r else x)
  else
    table ++ [r]

/-- Modelled from the spec: `upload(symbol, timeframe, file_path)` writes the
parsed export's rows as an UPSERT keyed on the timestamp column, row by row. -/
def uploadRows (table : List OhlcvRow) (rows : List OhlcvRow) : List OhlcvRow :=
  rows.foldl upsertOne table

/-- The timestamps (natural keys) present in a destination table. -/
def tableKeys (table : List OhlcvRow) : List String :=
  table.map (fun x => x.timestamp)

/-! ## Symbol status tracking (scraper-service `task_info.py`) -/

/-- Modelled from the spec: timeframe attempt states of the Job/Status
Tracker (`scraper-service/app/models/task_info.py` is not present in the
repository snapshot). -/
inductive TfStatus where
  | pending | downloading | success | failed
  deriving Repr, DecidableEq

/-- Modelled from the spec: the tracker derives a symbol's status from its
timeframe records — `completed` when all succeeded, otherwise `partial` when
at least one succeeded, otherwise `failed`. -/
def computeSymbolStatus (tfs : List TfStatus) : String :=
  if tfs.all (fun t => t = .success) then "completed"
  else if tfs.any (fun t => t = .success) then "partial"
  else "failed"

/-! ## Theorems -/

/-- C2: a retry `POST` with a well-formed symbol, received while the scraper's
health response reports a non-null `current_job`, is rejected with HTTP 409
("A job is already running") and the `jobs/retry` request is never sent, so no
retry job is started. -/
theorem retry_rejected_while_job_running (s j : String) (env : RetryEnv)
    (hs : symbolPatternTest s = true)
    (hok : env.healthOk = true)
    (hjob : env.current_job = some j) :
    retryPOST (some s) env =
      { outcome := .jobAlreadyRunning j, healthRequested := true, retryRequested := false } ∧
    retryOutcomeCode (retryPOST (some s) env).outcome = 409 := by
  have he : ¬ s = "" := by
    intro h
    rw [h] at hs
    exact absurd hs (by decide)
  simp [retryPOST, he, hs, hok, hjob, retryOutcomeCode]

theorem retry_rejected_while_job_running_witness :
    retryPOST (some "AAPL")
        { healthOk := true, current_job := some "job_1", retryOk := true
          retryStatus := 0, retryJobId := "r1", retryJobStatus := "running" } =
      { outcome := .jobAlreadyRunning "job_1", healthRequested := true
        retryRequested := false } ∧
    retryOutcomeCode (retryPOST (some "AAPL")
        { healthOk := true, current_job := some "job_1", retryOk := true
          retryStatus := 0, retryJobId := "r1", retryJobStatus := "running" }).outcome = 409 :=
  retry_rejected_while_job_running "AAPL" "job_1" _ (by decide) rfl rfl

/-- C4: the retry `POST` validates the submitted symbol against
`/^[A-Z0-9.]{1,10}$/`: a missing symbol and every non-matching symbol are
rejected with HTTP 400 before any request reaches the scraper service, and
every matching symbol passes validation (reaching the health check and never
producing a validation error). -/
theorem retry_symbol_validation (env : RetryEnv) :
    ((retryPOST none env).outcome = .symbolRequired ∧
      retryOutcomeCode (retryPOST none env).outcome = 400 ∧
      (retryPOST none env).healthRequested = false ∧
      (retryPOST none env).retryRequested = false)
  ∧ (∀ s : String, symbolPatternTest s = false →
      retryOutcomeCode (retryPOST (some s) env).outcome = 400 ∧
      (retryPOST (some s) env).healthRequested = false ∧
      (retryPOST (some s) env).retryRequested = false)
  ∧ (∀ s : String, symbolPatternTest s = true →
      (retryPOST (some s) env).outcome ≠ .symbolRequired ∧
      (retryPOST (some s) env).outcome ≠ .invalidSymbolFormat ∧
      (retryPOST (some s) env).healthRequested = true) := by
  refine ⟨⟨rfl, rfl, rfl, rfl⟩, ?_, ?_⟩
  · intro s hs
    by_cases he : s = ""
    · subst he
      exact ⟨rfl, rfl, rfl⟩
    · simp [retryPOST, he, hs, retryOutcomeCode]
  · intro s hs
    have he : ¬ s = "" := by
      intro h
      rw [h] at hs
      exact absurd hs (by decide)
    by_cases hok : env.healthOk
    · cases hjob : env.current_job with
      | none =>
          by_cases hr : env.retryOk <;>
            simp [retryPOST, he, hs, hok, hjob, hr]
      | some j =>
          simp [retryPOST, he, hs, hok, hjob]
    · simp [retryPOST, he, hs, hok]

theorem retry_symbol_validation_witness :
    (retryOutcomeCode (retryPOST (some "aapl")
        { healthOk := true, current_job := none, retryOk := true
          retryStatus := 0, retryJobId := "r1", retryJobStatus := "running" }).outcome = 400)
  ∧ ((retryPOST (some "NVDA")
        { healthOk := true, current_job := none, retryOk := true
          retryStatus := 0, retryJobId := "r1", retryJobStatus := "running" }).healthRequested
      = true) :=
  ⟨((retry_symbol_validation _).2.1 "aapl" (by decide)).1,
   ((retry_symbol_validation _).2.2 "NVDA" (by decide)).2.2⟩

/-- C8: a `scraping_logs` row can be stored exactly when its level is one of
the five ENUM values DEBUG, INFO, WARNING, ERROR, CRITICAL, and every stored
row carries the `job_id`, `timestamp`, optional `symbol`, optional
`timeframe` and `message` fields it was inserted with. -/
theorem scraping_log_level_enum (table : List ScrapingLogRow)
    (job_id ts lv : String) (sym tf : Option String) (msg : String) :
    ((insertScrapingLog table job_id ts lv sym tf msg).isSome ↔
      lv = "DEBUG" ∨ lv = "INFO" ∨ lv = "WARNING" ∨ lv = "ERROR" ∨ lv = "CRITICAL")
  ∧ (∀ table', insertScrapingLog table job_id ts lv sym tf msg = some table' →
      ∀ r ∈ table', r ∈ table ∨
        (r.job_id = job_id ∧ r.timestamp = ts ∧ r.symbol = sym ∧
         r.timeframe = tf ∧ r.message = msg ∧ some r.level = parseLogLevel lv)) := by
  constructor
  · unfold insertScrapingLog parseLogLevel
    split <;> rename_i h₁
    · simp [h₁]
    · split <;> rename_i h₂
      · simp [h₁, h₂]
      · split <;> rename_i h₃
        · simp [h₁, h₂, h₃]
        · split <;> rename_i h₄
          · simp [h₁, h₂, h₃, h₄]
          · split <;> rename_i h₅ <;> simp [h₁, h₂, h₃, h₄, h₅]
  · intro table' htab r hr
    unfold insertScrapingLog at htab
    cases hlv : parseLogLevel lv with
    | none => rw [hlv] at htab; exact absurd htab (by simp)
    | some l =>
        rw [hlv] at htab
        simp only [Option.map_some', Option.some.injEq] at htab
        subst htab
        rcases List.mem_append.mp hr with h | h
        · exact Or.inl h
        · simp only [List.mem_singleton] at h
          subst h
          exact Or.inr ⟨rfl, rfl, rfl, rfl, rfl, rfl⟩

theorem scraping_log_level_enum_witness :
    ∀ r ∈ [({ id := 1, job_id := "j1", timestamp := "t1", level := .INFO
              symbol := some "AAPL", timeframe := some "1일"
              message := "ok" } : ScrapingLogRow)], r ∈ ([] : List ScrapingLogRow) ∨
      (r.job_id = "j1" ∧ r.timestamp = "t1" ∧ r.symbol = some "AAPL" ∧
       r.timeframe = some "1일" ∧ r.message = "ok" ∧ some r.level = parseLogLevel "INFO") :=
  (scraping_log_level_enum [] "j1" "t1" "INFO" (some "AAPL") (some "1일") "ok").2 _ rfl

/-- C3: the `GET` handler derives its response from the parsed
`task_info.json` exactly when the file exists, parses, and carries a truthy
`job_id` different from the sentinel `"initial"`; in every other case (file
missing, unparseable, empty `job_id`, or `job_id == "initial"`) the response
is derived from parsing the log file. -/
theorem get_status_dispatch (read : TaskInfoRead) (logStatus : ScrapingStatus)
    (S : List String) (now : String) :
    (∀ t, read = some (some t) → t.job_id ≠ "" → t.job_id ≠ "initial" →
        getStatusResponse read logStatus S now = convertTaskInfoToStatus t S now)
  ∧ ((∀ t, read = some (some t) → t.job_id = "" ∨ t.job_id = "initial") →
        getStatusResponse read logStatus S now = logStatus) := by
  constructor
  · rintro t rfl h1 h2
    simp [getStatusResponse, getStatusSource, h1, h2]
  · intro h
    match read with
    | none => rfl
    | some none => rfl
    | some (some t) =>
        rcases h t rfl with h1 | h1 <;>
          simp [getStatusResponse, getStatusSource, h1]

/-- A parsed `task_info.json` document with a real `job_id` and no symbol
records, used as a concrete input. -/
def taskInfoEx : TaskInfoJob :=
  { job_id := "job_42", status := "running", symbols := []
    total_downloaded := 0, total_uploaded := 0, total_rows := 0 }

/-- A concrete fallback view standing for the result of `parseScrapingLog()`. -/
def logStatusEx : ScrapingStatus :=
  { status := "idle"
    progress := { totalSymbols := 0, completedSymbols := 0, percentage := 0 }
    statistics := { totalDownloads := 0, successfulUploads := 0
                    failedDownloads := 0, totalRowsUploaded := 0 }
    symbols := []
    errors := [] }

theorem get_status_dispatch_witness :
    getStatusResponse (some (some taskInfoEx)) logStatusEx ["AAPL"] "t0" =
      convertTaskInfoToStatus taskInfoEx ["AAPL"] "t0" ∧
    getStatusResponse none logStatusEx ["AAPL"] "t0" = logStatusEx :=
  ⟨(get_status_dispatch (some (some taskInfoEx)) logStatusEx ["AAPL"] "t0").1
      taskInfoEx rfl (by decide) (by decide),
   (get_status_dispatch none logStatusEx ["AAPL"] "t0").2 (fun t h => nomatch h)⟩

/-- A `task_info.json` document recording a job terminated by an external stop
signal (`status == "stopped"`), with one fully succeeded symbol. -/
def stoppedJobEx : TaskInfoJob :=
  { job_id := "job_7", status := "stopped"
    symbols := [("AAPL",
      { symbol := "AAPL", status := "completed"
        timeframes := [("1일", { status := "success", rows := 100 })] })]
    total_downloaded := 1, total_uploaded := 1, total_rows := 100 }

/-- C6 counterexample: for a job stopped by an external signal, the status
route's conversion reports `"idle"`, not the `"partial"` terminal state the
claim requires (`statusMap` maps `'stopped'` to `'idle'`). -/
theorem stopped_job_report_counterexample :
    stoppedJobEx.status = "stopped" ∧
    (convertTaskInfoToStatus stoppedJobEx ["AAPL"] "t0").status = "idle" ∧
    ¬ (convertTaskInfoToStatus stoppedJobEx ["AAPL"] "t0").status = "partial" := by
  refine ⟨rfl, rfl, ?_⟩
  decide

/-- C6 amended: for every job whose persisted JobDocument records the stopped
outcome (`status == "stopped"`), the externally reported job status is
`"idle"` — the not-running presentation — and in particular never
`"partial"`. -/
theorem stopped_job_reported_idle (t : TaskInfoJob) (S : List String)
    (now : String) (h : t.status = "stopped") :
    (convertTaskInfoToStatus t S now).status = "idle" ∧
    (convertTaskInfoToStatus t S now).status ≠ "partial" := by
  have hs : (convertTaskInfoToStatus t S now).status
      = (jobStatusMap t.status).getD "idle" := rfl
  rw [hs, h]
  exact ⟨rfl, by decide⟩

theorem stopped_job_reported_idle_witness :
    (convertTaskInfoToStatus stoppedJobEx ["AAPL"] "t0").status = "idle" ∧
    (convertTaskInfoToStatus stoppedJobEx ["AAPL"] "t0").status ≠ "partial" :=
  stopped_job_reported_idle stoppedJobEx ["AAPL"] "t0" rfl

/-- The fully pending entry the status route emits for a symbol that has no
record in `taskInfo.symbols`. -/
def pendingSymbolOut (symbol : String) : SymbolOut :=
  { symbol := symbol
    status := "pending"
    tf12 := { status := "pending" }
    tf1m := { status := "pending" }
    tf1w := { status := "pending" }
    tf1d := { status := "pending" } }

/-- C5: for every `task_info` document and every configured symbol with no
record in the document's symbols map, the converted snapshot reports that
symbol as `"pending"` with all four timeframes (`12달`, `1달`, `1주`, `1일`)
`"pending"`. -/
theorem unreached_symbols_pending (t : TaskInfoJob) (S : List String)
    (now sym : String) (hmem : sym ∈ S)
    (hnone : assocLookup t.symbols sym = none) :
    buildSymbolStatus t sym = pendingSymbolOut sym ∧
    pendingSymbolOut sym ∈ (convertTaskInfoToStatus t S now).symbols ∧
    (pendingSymbolOut sym).status = "pending" ∧
    (pendingSymbolOut sym).tf12.status = "pending" ∧
    (pendingSymbolOut sym).tf1m.status = "pending" ∧
    (pendingSymbolOut sym).tf1w.status = "pending" ∧
    (pendingSymbolOut sym).tf1d.status = "pending" := by
  have hb : buildSymbolStatus t sym = pendingSymbolOut sym := by
    unfold buildSymbolStatus
    rw [hnone]
    rfl
  refine ⟨hb, ?_, rfl, rfl, rfl, rfl, rfl⟩
  have hsyms : (convertTaskInfoToStatus t S now).symbols
      = S.map (buildSymbolStatus t) := rfl
  rw [hsyms, ← hb]
  exact List.mem_map_of_mem _ hmem

theorem unreached_symbols_pending_witness :
    pendingSymbolOut "NVDA" ∈
      (convertTaskInfoToStatus taskInfoEx ["NVDA"] "t0").symbols :=
  (unreached_symbols_pending taskInfoEx ["NVDA"] "t0" "NVDA"
    (by simp) rfl).2.1

/-- Length of a `filterMap` as the count of inputs mapped to `some`. -/
theorem length_filterMap_eq_countP {α β : Type} (f : α → Option β) (l : List α) :
    (l.filterMap f).length = l.countP (fun a => (f a).isSome) := by
  induction l with
  | nil => rfl
  | cons a l ih =>
      cases h : f a <;>
        simp [List.filterMap_cons, h, List.countP_cons, ih]

/-- Length of a `flatMap` as the sum of the pieces' lengths. -/
theorem length_flatMap_eq_sum {α β : Type} (f : α → List β) (l : List α) :
    (l.flatMap f).length = (l.map (fun a => (f a).length)).sum := by
  induction l with
  | nil => rfl
  | cons a l ih => simp [List.flatMap_cons, ih]

/-- C10: the converted view's error list holds at most 50 entries — the
collection gathers one entry per timeframe record carrying a truthy error
string and the final list keeps only the last 50 collected entries. -/
theorem errors_capped_at_50 (t : TaskInfoJob) (S : List String) (now : String) :
    (convertTaskInfoToStatus t S now).errors.length ≤ 50
  ∧ (convertTaskInfoToStatus t S now).errors =
      (collectErrors t now).drop ((collectErrors t now).length - 50)
  ∧ (collectErrors t now).length =
      (t.symbols.map (fun p =>
        p.2.timeframes.countP (fun q => (strTruthy q.2.error).isSome))).sum := by
  refine ⟨?_, rfl, ?_⟩
  · have h : (convertTaskInfoToStatus t S now).errors =
        (collectErrors t now).drop ((collectErrors t now).length - 50) := rfl
    rw [h, List.length_drop]
    omega
  · unfold collectErrors
    rw [length_flatMap_eq_sum]
    simp only [length_filterMap_eq_countP, Option.isSome_map']

/-- `Math.round((c / t) * 100)` stays within 100 when `c ≤ t` and `t > 0`. -/
theorem roundPct_le_100 (c t : Nat) (h0 : 0 < t) (hc : c ≤ t) :
    roundPct c t ≤ 100 := by
  unfold roundPct
  have h2 : 0 < 2 * t := by omega
  have hlt : 200 * c + t < 101 * (2 * t) := by omega
  have := (Nat.div_lt_iff_lt_mul h2).mpr hlt
  omega

/-- C9: the converted view's progress percentage is a well-defined natural
number at most 100: the division is guarded by a positivity check on
`totalSymbols` (yielding 0 otherwise), and when the document's symbols map is
non-empty, `completedSymbols` never exceeds `totalSymbols`. -/
theorem progress_percentage_bounded (t : TaskInfoJob) (S : List String)
    (now : String) :
    (convertTaskInfoToStatus t S now).progress.percentage ≤ 100
  ∧ ((convertTaskInfoToStatus t S now).progress.totalSymbols = 0 →
      (convertTaskInfoToStatus t S now).progress.percentage = 0)
  ∧ (t.symbols ≠ [] →
      (convertTaskInfoToStatus t S now).progress.completedSymbols ≤
        (convertTaskInfoToStatus t S now).progress.totalSymbols) := by
  have hc : (convertTaskInfoToStatus t S now).progress.completedSymbols
      = (t.symbols.map Prod.snd).countP (fun s => s.status = "completed") := rfl
  have ht : (convertTaskInfoToStatus t S now).progress.totalSymbols
      = (if t.symbols.length = 0 then S.length else t.symbols.length) := rfl
  have hp : (convertTaskInfoToStatus t S now).progress.percentage
      = (if 0 < (if t.symbols.length = 0 then S.length else t.symbols.length)
         then roundPct
            ((t.symbols.map Prod.snd).countP (fun s => s.status = "completed"))
            (if t.symbols.length = 0 then S.length else t.symbols.length)
         else 0) := rfl
  have hcount : (t.symbols.map Prod.snd).countP (fun s => s.status = "completed")
      ≤ t.symbols.length := by
    calc (t.symbols.map Prod.snd).countP (fun s => s.status = "completed")
        ≤ (t.symbols.map Prod.snd).length := List.countP_le_length _
      _ = t.symbols.length := List.length_map _ _
  by_cases hz : t.symbols.length = 0
  · have hnil : t.symbols = [] := List.length_eq_zero.mp hz
    have hc0 : (t.symbols.map Prod.snd).countP (fun s => s.status = "completed") = 0 := by
      rw [hnil]; rfl
    refine ⟨?_, ?_, ?_⟩
    · rw [hp, hz, hc0]
      by_cases hS : 0 < S.length
      · have : roundPct 0 S.length = 0 := by
          unfold roundPct
          exact Nat.div_eq_of_lt (by omega)
        simp [hS, this]
      · simp [hS]
    · intro _
      rw [hp, ht, hz] at *
      by_cases hS : 0 < S.length
      · rw [hc0]
        have : roundPct 0 S.length = 0 := by
          unfold roundPct
          exact Nat.div_eq_of_lt (by omega)
        simp [hS, this]
      · simp [hS]
    · intro hne
      exact absurd hnil hne
  · have hpos : 0 < t.symbols.length := Nat.pos_of_ne_zero hz
    refine ⟨?_, ?_, ?_⟩
    · rw [hp]
      simp only [hz, if_false, hpos, if_true]
      exact roundPct_le_100 _ _ hpos hcount
    · intro h0
      rw [ht] at h0
      simp only [hz, if_false] at h0
    · intro _
      rw [hc, ht]
      simp only [hz, if_false]
      exact hcount

theorem progress_percentage_bounded_witness :
    stoppedJobEx.symbols ≠ [] ∧
    (convertTaskInfoToStatus stoppedJobEx ["AAPL"] "t0").progress.completedSymbols ≤
      (convertTaskInfoToStatus stoppedJobEx ["AAPL"] "t0").progress.totalSymbols :=
  ⟨by decide, (progress_percentage_bounded stoppedJobEx ["AAPL"] "t0").2.2 (by decide)⟩

/-- A row's key is found by the table scan exactly when it is among the
table's keys. -/
theorem any_timestamp_eq_mem (table : List OhlcvRow) (r : OhlcvRow) :
    (table.any (fun x => x.timestamp = r.timestamp)) = true ↔
      r.timestamp ∈ tableKeys table := by
  simp [tableKeys, List.any_eq_true, List.mem_map]

/-- Upserting a row whose key is already present leaves the key list
unchanged. -/
theorem tableKeys_upsertOne_of_mem (table : List OhlcvRow) (r : OhlcvRow)
    (h : r.timestamp ∈ tableKeys table) :
    tableKeys (upsertOne table r) = tableKeys table := by
  unfold upsertOne
  rw [if_pos ((any_timestamp_eq_mem table r).mpr h)]
  unfold tableKeys
  rw [List.map_map]
  apply List.map_congr_left
  intro x hx
  by_cases hxx : x.timestamp = r.timestamp <;> simp [hxx]

/-- Upserting a row with a fresh key appends exactly that key. -/
theorem tableKeys_upsertOne_of_not_mem (table : List OhlcvRow) (r : OhlcvRow)
    (h : ¬ r.timestamp ∈ tableKeys table) :
    tableKeys (upsertOne table r) = tableKeys table ++ [r.timestamp] := by
  unfold upsertOne
  rw [if_neg (fun hb => h ((any_timestamp_eq_mem table r).mp hb))]
  unfold tableKeys
  rw [List.map_append]
  rfl

/-- After one upsert, both the old keys and the upserted key are present. -/
theorem mem_tableKeys_upsertOne (table : List OhlcvRow) (r : OhlcvRow)
    (a : String) (h : a ∈ tableKeys table ∨ a = r.timestamp) :
    a ∈ tableKeys (upsertOne table r) := by
  by_cases hm : r.timestamp ∈ tableKeys table
  · rw [tableKeys_upsertOne_of_mem table r hm]
    rcases h with h | h
    · exact h
    · rw [h]; exact hm
  · rw [tableKeys_upsertOne_of_not_mem table r hm]
    rcases h with h | h
    · exact List.mem_append_left _ h
    · rw [h]
      exact List.mem_append_right _ (List.mem_singleton_self _)

/-- Uploading never removes a key from the table. -/
theorem mem_tableKeys_uploadRows (rows : List OhlcvRow) :
    ∀ (table : List OhlcvRow) (a : String), a ∈ tableKeys table →
      a ∈ tableKeys (uploadRows table rows) := by
  induction rows with
  | nil => intro t a h; exact h
  | cons r rs ih =>
      intro t a h
      simp only [uploadRows, List.foldl_cons]
      exact ih _ a (mem_tableKeys_upsertOne t r a (Or.inl h))

/-- Every uploaded row's key is present after the upload. -/
theorem mem_key_uploadRows_of_mem (rows : List OhlcvRow) :
    ∀ (table : List OhlcvRow) (r : OhlcvRow), r ∈ rows →
      r.timestamp ∈ tableKeys (uploadRows table rows) := by
  induction rows with
  | nil => intro t r h; cases h
  | cons r0 rs ih =>
      intro t r h
      simp only [uploadRows, List.foldl_cons]
      rcases List.mem_cons.mp h with h | h
      · subst h
        exact mem_tableKeys_uploadRows rs _ _
          (mem_tableKeys_upsertOne t r _ (Or.inr rfl))
      · exact ih _ r h

/-- Uploading rows whose keys are all already present leaves the key list
unchanged. -/
theorem tableKeys_uploadRows_of_covered (rows : List OhlcvRow) :
    ∀ (table : List OhlcvRow), (∀ r ∈ rows, r.timestamp ∈ tableKeys table) →
      tableKeys (uploadRows table rows) = tableKeys table := by
  induction rows with
  | nil => intro t _; rfl
  | cons r rs ih =>
      intro t h
      simp only [uploadRows, List.foldl_cons]
      have h0 : r.timestamp ∈ tableKeys t := h r (List.mem_cons_self r rs)
      have hk := tableKeys_upsertOne_of_mem t r h0
      have hrest : ∀ x ∈ rs, x.timestamp ∈ tableKeys (upsertOne t r) := by
        intro x hx
        rw [hk]
        exact h x (List.mem_cons_of_mem _ hx)
      calc tableKeys (List.foldl upsertOne (upsertOne t r) rs)
          = tableKeys (upsertOne t r) := ih (upsertOne t r) hrest
        _ = tableKeys t := hk

/-- One upsert preserves key distinctness. -/
theorem nodup_tableKeys_upsertOne (table : List OhlcvRow) (r : OhlcvRow)
    (h : (tableKeys table).Nodup) : (tableKeys (upsertOne table r)).Nodup := by
  by_cases hm : r.timestamp ∈ tableKeys table
  · rw [tableKeys_upsertOne_of_mem table r hm]
    exact h
  · rw [tableKeys_upsertOne_of_not_mem table r hm]
    refine List.nodup_append.mpr ⟨h, List.nodup_singleton _, ?_⟩
    intro a ha hb
    rw [List.mem_singleton.mp hb] at ha
    exact hm ha

/-- Uploading preserves key distinctness. -/
theorem nodup_tableKeys_uploadRows (rows : List OhlcvRow) :
    ∀ table, (tableKeys table).Nodup → (tableKeys (uploadRows table rows)).Nodup := by
  induction rows with
  | nil => intro t h; exact h
  | cons r rs ih =>
      intro t h
      simp only [uploadRows, List.foldl_cons]
      exact ih _ (nodup_tableKeys_upsertOne t r h)

/-- C1: uploading the same export file twice via the UPSERT keyed on the
timestamp column yields the same destination-table row count as uploading it
once, and (starting from a table with distinct timestamps) re-running on
overlapping ranges never produces duplicate rows. -/
theorem upload_upsert_idempotent (table rows : List OhlcvRow) :
    (uploadRows (uploadRows table rows) rows).length = (uploadRows table rows).length
  ∧ ((tableKeys table).Nodup → (tableKeys (uploadRows table rows)).Nodup) := by
  constructor
  · have hcov : ∀ r ∈ rows, r.timestamp ∈ tableKeys (uploadRows table rows) :=
      fun r hr => mem_key_uploadRows_of_mem rows table r hr
    have hkeys := tableKeys_uploadRows_of_covered rows (uploadRows table rows) hcov
    have h1 : (tableKeys (uploadRows (uploadRows table rows) rows)).length
        = (tableKeys (uploadRows table rows)).length := by rw [hkeys]
    simpa [tableKeys, List.length_map] using h1
  · exact nodup_tableKeys_uploadRows rows table

/-- A concrete OHLCV export row. -/
def rowEx1 : OhlcvRow :=
  { timestamp := "2026-01-02", open_p := 1, high := 2, low := 0, close := 1, volume := 10 }

/-- A second concrete OHLCV export row with a different timestamp. -/
def rowEx2 : OhlcvRow :=
  { timestamp := "2026-01-03", open_p := 1, high := 3, low := 1, close := 2, volume := 20 }

theorem upload_upsert_idempotent_witness :
    (uploadRows (uploadRows [] [rowEx1, rowEx2]) [rowEx1, rowEx2]).length =
      (uploadRows [] [rowEx1, rowEx2]).length ∧
    (tableKeys (uploadRows [] [rowEx1, rowEx2])).Nodup :=
  ⟨(upload_upsert_idempotent [] [rowEx1, rowEx2]).1,
   (upload_upsert_idempotent [] [rowEx1, rowEx2]).2 List.nodup_nil⟩

/-- C7: with every timeframe record settled (success or failed) and at least
one record present, the tracked symbol status is `completed` iff all records
succeeded, `failed` iff none succeeded and at least one failed, and `partial`
iff at least one succeeded and at least one failed. -/
theorem symbol_status_iff (tfs : List TfStatus) (hne : tfs ≠ [])
    (hterm : ∀ t ∈ tfs, t = TfStatus.success ∨ t = TfStatus.failed) :
    (computeSymbolStatus tfs = "completed" ↔ ∀ t ∈ tfs, t = TfStatus.success)
  ∧ (computeSymbolStatus tfs = "failed" ↔
      ((∀ t ∈ tfs, t ≠ TfStatus.success) ∧ ∃ t ∈ tfs, t = TfStatus.failed))
  ∧ (computeSymbolStatus tfs = "partial" ↔
      ((∃ t ∈ tfs, t = TfStatus.success) ∧ ∃ t ∈ tfs, t = TfStatus.failed)) := by
  obtain ⟨t0, ht0⟩ := List.exists_mem_of_ne_nil tfs hne
  by_cases hall : ∀ t ∈ tfs, t = TfStatus.success
  · have hcs : computeSymbolStatus tfs = "completed" := by
      unfold computeSymbolStatus
      rw [if_pos (by simpa [List.all_eq_true] using hall)]
    refine ⟨⟨fun _ => hall, fun _ => hcs⟩, ?_, ?_⟩
    · constructor
      · intro h
        exact absurd (hcs.symm.trans h) (by decide)
      · rintro ⟨hns, -⟩
        exact absurd (hall t0 ht0) (hns t0 ht0)
    · constructor
      · intro h
        exact absurd (hcs.symm.trans h) (by decide)
      · rintro ⟨-, tf, htf, hf⟩
        have hs := hall tf htf
        rw [hs] at hf
        exact absurd hf (by decide)
  · have hfail : ∃ t ∈ tfs, t = TfStatus.failed := by
      have hex : ∃ t ∈ tfs, t ≠ TfStatus.success := by
        by_contra hc
        push_neg at hc
        exact hall hc
      obtain ⟨t1, ht1, hne1⟩ := hex
      rcases hterm t1 ht1 with h1 | h1
      · exact absurd h1 hne1
      · exact ⟨t1, ht1, h1⟩
    by_cases hany : ∃ t ∈ tfs, t = TfStatus.success
    · have hcs : computeSymbolStatus tfs = "partial" := by
        unfold computeSymbolStatus
        rw [if_neg (by simpa [List.all_eq_true] using hall),
            if_pos (by simpa [List.any_eq_true] using hany)]
      refine ⟨?_, ?_, ⟨fun _ => ⟨hany, hfail⟩, fun _ => hcs⟩⟩
      · constructor
        · intro h
          exact absurd (hcs.symm.trans h) (by decide)
        · intro h
          exact absurd h hall
      · constructor
        · intro h
          exact absurd (hcs.symm.trans h) (by decide)
        · rintro ⟨hns, -⟩
          obtain ⟨ts, hts, hs⟩ := hany
          exact absurd hs (hns ts hts)
    · have hcs : computeSymbolStatus tfs = "failed" := by
        unfold computeSymbolStatus
        rw [if_neg (by simpa [List.all_eq_true] using hall),
            if_neg (by simpa [List.any_eq_true] using hany)]
      have hns : ∀ t ∈ tfs, t ≠ TfStatus.success := by
        intro t ht hs
        exact hany ⟨t, ht, hs⟩
      refine ⟨?_, ⟨fun _ => ⟨hns, hfail⟩, fun _ => hcs⟩, ?_⟩
      · constructor
        · intro h
          exact absurd (hcs.symm.trans h) (by decide)
        · intro h
          exact absurd h hall
      · constructor
        · intro h
          exact absurd (hcs.symm.trans h) (by decide)
        · rintro ⟨hsx, -⟩
          exact absurd hsx hany

theorem symbol_status_iff_witness :
    computeSymbolStatus [TfStatus.success, TfStatus.failed] = "partial" :=
  ((symbol_status_iff [TfStatus.success, TfStatus.failed] (by decide)
      (by decide)).2.2).mpr
    ⟨⟨TfStatus.success, by decide, rfl⟩, ⟨TfStatus.failed, by decide, rfl⟩⟩
